import Mathlib

/-!
Shallow embedding of the elevenlabs-rust client library: the `Config` value,
the JSON data-transfer shapes, the shared `UtilsError` type, the request
construction performed by each client operation, and the status-branching
each operation applies to the HTTP response.  Stateful effects (the outbound
HTTP exchange, the process environment, the local file system) are passed in
explicitly; machine integers of the DTOs are modelled as `Int`, `f32` fields
as exact rationals (`Rat`), matching serde_json's exact round-tripping of
finite floats.
-/

set_option maxRecDepth 4000

namespace ElevenLabs

/-- Bytes of a fully buffered HTTP response body (`Vec<u8>` / `Bytes` in the
source; every response is read whole before use). -/
abbrev Bytes := List Nat

/-- Modelled from the spec: `Config` (referenced by every client as
`crate::config::Config` but its defining file is not under `src/`): "holds
API base URL and API key", created from two plain string values. -/
structure Config where
  api_url : String
  api_key : String
deriving DecidableEq, Repr

/-- The `std::env::VarError` case relevant here: `env::var` on an absent
variable returns `VarError::NotPresent`. -/
inductive VarError where
  | NotPresent
deriving DecidableEq, Repr

/-- A process environment: a partial map from variable names to values. -/
abbrev Env := String → Option String

/-- Semantics of `std::env::var name` over a modelled environment. -/
def env_var (env : Env) (name : String) : Except VarError String :=
  match env name with
  | some v => Except.ok v
  | none => Except.error VarError.NotPresent

/-- `load_api_key` from `config_loader.rs`: `env::var("ELEVENLABS_API_KEY")`. -/
def load_api_key (env : Env) : Except VarError String :=
  env_var env "ELEVENLABS_API_KEY"

/-- `load_api_url` from `config_loader.rs`: `env::var("ELEVENLABS_API_URL")`. -/
def load_api_url (env : Env) : Except VarError String :=
  env_var env "ELEVENLABS_API_URL"

/-- Model of `reqwest::Error`: a status error produced by
`error_for_status` (carrying the offending status code), a transport
failure, or a body-decode failure from `Response::json`. -/
inductive ReqwestError where
  | status (code : Nat)
  | transport (msg : String)
  | decode (msg : String)
deriving DecidableEq, Repr

/-- Model of `std::io::Error`: the message it renders. -/
structure IoError where
  msg : String
deriving DecidableEq, Repr

/-- Rendering of `reqwest::Error` (its `Display`); for a status error the
real rendering is "HTTP status client error (401 Unauthorized) for url
(...)" — the reason phrase and url are elided, the numeric code is kept. -/
def reqwestDisplay : ReqwestError → String
  | ReqwestError.status code =>
      ("HTTP status " ++ (if 500 ≤ code then "server" else "client") ++ " error (")
        ++ toString code ++ ")"
  | ReqwestError.transport msg => msg
  | ReqwestError.decode msg => msg

/-- Rendering of `std::io::Error` (its `Display`). -/
def ioDisplay (e : IoError) : String := e.msg

namespace Errors

/-- `UtilsError` exactly as the enum in `errors.rs` declares it: two
variants, `Http(reqwest::Error)` and `Io(std::io::Error)`.  (Call sites in
`tts.rs`, `voices.rs` and `user.rs` additionally construct a
`UtilsError::Custom` variant that this enum does not declare.) -/
inductive UtilsError where
  | Http (err : ReqwestError)
  | Io (err : IoError)
deriving DecidableEq, Repr

/-- The trait object `&(dyn error::Error + 'static)` returned by `source`:
either of the two wrapped error values. -/
inductive DynError where
  | reqwest (e : ReqwestError)
  | io (e : IoError)
deriving DecidableEq, Repr

/-- `impl fmt::Display for UtilsError` from `errors.rs`. -/
def UtilsError.display : UtilsError → String
  | UtilsError.Http err => "HTTP Error: " ++ reqwestDisplay err
  | UtilsError.Io err => "IO Error: " ++ ioDisplay err

/-- `impl error::Error for UtilsError`, method `source`, from `errors.rs`:
both variants return `Some` of the wrapped error. -/
def UtilsError.source : UtilsError → Option DynError
  | UtilsError.Http err => some (DynError.reqwest err)
  | UtilsError.Io err => some (DynError.io err)

end Errors

namespace Client

/-- The error type as the client modules use it: besides the `Http` and
`Io` variants declared in `errors.rs`, the call sites in `tts.rs`,
`voices.rs` and `user.rs` construct `UtilsError::Custom(String)` for
non-success statuses (a variant missing from the declared enum), and
`tts.rs` line 88 propagates a `header::InvalidHeaderValue` with `?`,
modelled as its own case. -/
inductive UtilsError where
  | Http (err : ReqwestError)
  | Io (err : IoError)
  | Custom (msg : String)
  | InvalidHeader
deriving DecidableEq, Repr

end Client

/-- JSON values as serde_json produces and consumes them.  Integer and
float tokens are kept distinct, as serde_json does: an `i32` field
serializes to an integer token and deserializes only from one, while an
`f32` field serializes to a float token and deserializes from either. -/
inductive Json where
  | null
  | bool (b : Bool)
  | int (n : Int)
  | float (q : Rat)
  | str (s : String)
  | arr (elems : List Json)
  | obj (fields : List (String × Json))

/-- Serialization of an `Option` field under serde's derive with no
attributes: `None` becomes `null`, `Some` serializes the payload. -/
def encodeOpt (enc : α → Json) : Option α → Json
  | none => Json.null
  | some a => enc a

/-- Deserializing a `String` field. -/
def Json.asStr : Json → Option String
  | Json.str s => some s
  | _ => none

/-- Deserializing an `i32` field: serde_json accepts only integer tokens. -/
def Json.asInt : Json → Option Int
  | Json.int n => some n
  | _ => none

/-- Deserializing an `f32` field: serde_json accepts integer and float
tokens. -/
def Json.asFloat : Json → Option Rat
  | Json.int n => some (n : Rat)
  | Json.float q => some q
  | _ => none

/-- Deserializing a `bool` field. -/
def Json.asBool : Json → Option Bool
  | Json.bool b => some b
  | _ => none

/-- Deserializing a `Vec` field. -/
def Json.asArr : Json → Option (List Json)
  | Json.arr elems => some elems
  | _ => none

/-- First value bound to a key in a JSON object's field list. -/
def lookupField : List (String × Json) → String → Option Json
  | [], _ => none
  | (k, v) :: rest, key => if k == key then some v else lookupField rest key

/-- Field access on an object; anything else has no fields. -/
def Json.getField : Json → String → Option Json
  | Json.obj fields, key => lookupField fields key
  | _, _ => none

/-- Deserializing an `Option<T>` struct field under serde's derive: a
missing field and an explicit `null` both give `None`; any other value must
deserialize as `T`. -/
def decodeOptField (dec : Json → Option α) (j : Json) (key : String) : Option (Option α) :=
  match j.getField key with
  | none => some none
  | some Json.null => some none
  | some v => (dec v).map some

/-- An `f32` value as serde_json treats it: a finite value (printed with a
shortest representation that parses back to the same value, so modelled as
an exact rational) or one of the non-finite values NaN, +∞, -∞. -/
inductive F32 where
  | finite (q : Rat)
  | nan
  | inf
  | negInf
deriving DecidableEq, Repr

/-- Whether an `f32` is finite. -/
def F32.isFinite : F32 → Bool
  | F32.finite _ => true
  | F32.nan => false
  | F32.inf => false
  | F32.negInf => false

/-- Serialization of an `f32` by serde_json: a finite value becomes a float
token; NaN and the infinities are written as `null`. -/
def encodeF32 : F32 → Json
  | F32.finite q => Json.float q
  | F32.nan => Json.null
  | F32.inf => Json.null
  | F32.negInf => Json.null

/-- Deserializing an `f32` field: serde_json accepts integer and float
tokens (both finite); `null` is not a number. -/
def Json.asF32 : Json → Option F32
  | Json.int n => some (F32.finite (n : Rat))
  | Json.float q => some (F32.finite q)
  | _ => none

/-- Whether an optional `f32` field holds no non-finite value. -/
def optFinite : Option F32 → Bool
  | none => true
  | some f => f.isFinite

namespace Tts

/-- `VoiceSettings` from `tts.rs`: `stability` and `similarity_boost` are
`i32`, `style` is `Option<f32>` (an `F32`, so NaN and the infinities are
representable), `use_speaker_boost` is `Option<bool>`. -/
structure VoiceSettings where
  stability : Int
  similarity_boost : Int
  style : Option F32
  use_speaker_boost : Option Bool
deriving DecidableEq, Repr

/-- `PronunciationDictionaryLocator` from `tts.rs`. -/
structure PronunciationDictionaryLocator where
  pronunciation_dictionary_id : String
  version_id : String
deriving DecidableEq, Repr

/-- `TtsRequest` from `tts.rs`: required `text`, three optional fields. -/
structure TtsRequest where
  text : String
  model_id : Option String
  voice_settings : Option VoiceSettings
  pronunciation_dictionary_locators : Option (List PronunciationDictionaryLocator)
deriving DecidableEq, Repr

/-- Derived `Serialize` for the TTS `VoiceSettings`: field order as
declared; `i32` fields become integer tokens, the optional `f32` a float
token. -/
def VoiceSettings.toJson (v : VoiceSettings) : Json :=
  Json.obj [("stability", Json.int v.stability),
            ("similarity_boost", Json.int v.similarity_boost),
            ("style", encodeOpt encodeF32 v.style),
            ("use_speaker_boost", encodeOpt Json.bool v.use_speaker_boost)]

/-- Derived `Deserialize` for the TTS `VoiceSettings`. -/
def VoiceSettings.fromJson (j : Json) : Option VoiceSettings := do
  let s ← j.getField "stability"
  let stability ← s.asInt
  let sb ← j.getField "similarity_boost"
  let similarity_boost ← sb.asInt
  let style ← decodeOptField Json.asF32 j "style"
  let use_speaker_boost ← decodeOptField Json.asBool j "use_speaker_boost"
  pure { stability, similarity_boost, style, use_speaker_boost }

/-- Whether the settings' optional `style` float is absent or finite. -/
def VoiceSettings.finiteFloats (v : VoiceSettings) : Bool :=
  optFinite v.style

/-- Derived `Serialize` for `PronunciationDictionaryLocator`. -/
def PronunciationDictionaryLocator.toJson (l : PronunciationDictionaryLocator) : Json :=
  Json.obj [("pronunciation_dictionary_id", Json.str l.pronunciation_dictionary_id),
            ("version_id", Json.str l.version_id)]

/-- Derived `Deserialize` for `PronunciationDictionaryLocator`. -/
def PronunciationDictionaryLocator.fromJson (j : Json) : Option PronunciationDictionaryLocator := do
  let p ← j.getField "pronunciation_dictionary_id"
  let pronunciation_dictionary_id ← p.asStr
  let v ← j.getField "version_id"
  let version_id ← v.asStr
  pure { pronunciation_dictionary_id, version_id }

/-- Elementwise deserialization of a `Vec<PronunciationDictionaryLocator>`. -/
def decodeLocators : List Json → Option (List PronunciationDictionaryLocator)
  | [] => some []
  | j :: rest => do
      let l ← PronunciationDictionaryLocator.fromJson j
      let ls ← decodeLocators rest
      pure (l :: ls)

/-- Derived `Serialize` for `TtsRequest`. -/
def TtsRequest.toJson (r : TtsRequest) : Json :=
  Json.obj [("text", Json.str r.text),
            ("model_id", encodeOpt Json.str r.model_id),
            ("voice_settings", encodeOpt VoiceSettings.toJson r.voice_settings),
            ("pronunciation_dictionary_locators",
              encodeOpt (fun ls => Json.arr (ls.map PronunciationDictionaryLocator.toJson))
                r.pronunciation_dictionary_locators)]

/-- Derived `Deserialize` for `TtsRequest`. -/
def TtsRequest.fromJson (j : Json) : Option TtsRequest := do
  let t ← j.getField "text"
  let text ← t.asStr
  let model_id ← decodeOptField Json.asStr j "model_id"
  let voice_settings ← decodeOptField VoiceSettings.fromJson j "voice_settings"
  let pronunciation_dictionary_locators ←
    decodeOptField (fun v => do decodeLocators (← v.asArr)) j "pronunciation_dictionary_locators"
  pure { text, model_id, voice_settings, pronunciation_dictionary_locators }

/-- Whether every `f32` occurring in the request (the optional `style` of
the optional `voice_settings`) is finite. -/
def TtsRequest.finiteFloats (r : TtsRequest) : Bool :=
  match r.voice_settings with
  | none => true
  | some v => v.finiteFloats

end Tts

namespace Voices

/-- `VoiceSettings` from `voices.rs`: `stability` and `similarity_boost`
are `f32` here, unlike the integer-typed fields of the TTS shape. -/
structure VoiceSettings where
  stability : Rat
  similarity_boost : Rat
  style : Option Rat
  use_speaker_boost : Option Bool
deriving DecidableEq, Repr

/-- Serialization of the voices `VoiceSettings` as `edit_voice_settings`
submits it with `.json(&settings)`: `f32` fields become float tokens. -/
def VoiceSettings.toJson (v : VoiceSettings) : Json :=
  Json.obj [("stability", Json.float v.stability),
            ("similarity_boost", Json.float v.similarity_boost),
            ("style", encodeOpt Json.float v.style),
            ("use_speaker_boost", encodeOpt Json.bool v.use_speaker_boost)]

/-- Derived `Deserialize` for the voices `VoiceSettings`. -/
def VoiceSettings.fromJson (j : Json) : Option VoiceSettings := do
  let s ← j.getField "stability"
  let stability ← s.asFloat
  let sb ← j.getField "similarity_boost"
  let similarity_boost ← sb.asFloat
  let style ← decodeOptField Json.asFloat j "style"
  let use_speaker_boost ← decodeOptField Json.asBool j "use_speaker_boost"
  pure { stability, similarity_boost, style, use_speaker_boost }

/-- `VoiceMetadata` from `voices.rs`: the declared field is `voice_id`. -/
structure VoiceMetadata where
  voice_id : String
deriving DecidableEq, Repr

/-- Derived `Deserialize` for `VoiceMetadata` (unknown fields ignored). -/
def VoiceMetadata.fromJson (j : Json) : Option VoiceMetadata := do
  let v ← j.getField "voice_id"
  let voice_id ← v.asStr
  pure { voice_id }

end Voices

/-- A concrete environment holding only the API key variable. -/
def envWithKey : Env :=
  fun name => if name = "ELEVENLABS_API_KEY" then some "sk-test-123" else none

/-- HTTP methods the library uses. -/
inductive Method where
  | GET
  | POST
  | DELETE
deriving DecidableEq, Repr

/-- One file attached to a multipart form (`multipart::Part::file`). -/
structure FilePart where
  path : String
  contents : Bytes
deriving DecidableEq, Repr

/-- One entry of a multipart form, in the order the code appends them. -/
inductive FormItem where
  | text (name value : String)
  | filePart (name : String) (part : FilePart)
deriving DecidableEq, Repr

/-- Body attached to an outbound request. -/
inductive RequestBody where
  | empty
  | json (j : Json)
  | multipart (form : List FormItem)

/-- An outbound HTTP request as the clients construct it: method, URL,
headers in insertion order, query parameters, and body. -/
structure Request where
  method : Method
  url : String
  headers : List (String × String)
  query : List (String × String)
  body : RequestBody

/-- `StatusCode::is_success` from the http crate: 2xx. -/
def isSuccess (status : Nat) : Bool :=
  decide (200 ≤ status) && decide (status < 300)

/-- `error_for_status` fails exactly on `is_client_error` (4xx) or
`is_server_error` (5xx); informational and redirect statuses pass. -/
def errorForStatus (status : Nat) : Bool :=
  (decide (400 ≤ status) && decide (status < 500))
    || (decide (500 ≤ status) && decide (status < 600))

/-- `header::HeaderValue::from_str` accepts the string when every byte is a
tab or is ≥ 32 and ≠ 127 (bytes of multi-byte UTF-8 characters are ≥ 128
and always pass). -/
def validHeaderValue (s : String) : Bool :=
  s.data.all fun c => c.toNat == 9 || (decide (32 ≤ c.toNat) && c.toNat != 127)

/-- Substring containment, stated over the underlying character lists. -/
def strContains (s pat : String) : Prop :=
  ∃ pre post : List Char, s.data = pre ++ pat.data ++ post

/-- Rendering of a query-parameter list as serde_urlencoded produces it. -/
def renderQuery : List (String × String) → String
  | [] => ""
  | [(k, v)] => k ++ "=" ++ v
  | (k, v) :: rest => k ++ "=" ++ v ++ "&" ++ renderQuery rest

/-- `create_request` from `http_helpers.rs`: any method and URL, with the
default JSON `Accept` and `Content-Type` headers attached. -/
def create_request (method : Method) (url : String) : Request :=
  { method := method, url := url,
    headers := [("Accept", "application/json"), ("Content-Type", "application/json")],
    query := [], body := RequestBody.empty }

/-- `RequestBuilder::header`: appends one header. -/
def Request.header (r : Request) (name value : String) : Request :=
  { r with headers := r.headers ++ [(name, value)] }

/-- `RequestBuilder::query`: appends query parameters. -/
def Request.withQuery (r : Request) (params : List (String × String)) : Request :=
  { r with query := r.query ++ params }

/-- An HTTP response whose body the caller reads as raw bytes
(`Response::bytes`, fully buffered). -/
structure Response where
  status : Nat
  body : Bytes
deriving DecidableEq, Repr

/-- An HTTP response whose body the caller reads as JSON
(`Response::json`, fully buffered). -/
structure JsonResponse where
  status : Nat
  body : Json

/-- An HTTP response whose body the caller reads as text
(`Response::text`, fully buffered). -/
structure TextResponse where
  status : Nat
  body : String
deriving DecidableEq, Repr

/-- The request `TextToSpeechClient::synthesize` constructs (`tts.rs` lines
83-92): POST to `{base}/v1/text-to-speech/{voice_id}` with `Accept:
audio/mpeg`, `Content-Type: application/json`, `xi-api-key`, and the
serialized `TtsRequest` as JSON body. -/
def synthesizeRequest (cfg : Config) (voiceId : String) (request : Tts.TtsRequest) : Request :=
  { method := Method.POST,
    url := cfg.api_url ++ "/v1/text-to-speech/" ++ voiceId,
    headers := [("Accept", "audio/mpeg"), ("Content-Type", "application/json"),
                ("xi-api-key", cfg.api_key)],
    query := [],
    body := RequestBody.json (Tts.TtsRequest.toJson request) }

/-- `TextToSpeechClient::synthesize` (`tts.rs` lines 82-107): validate the
API key as a header value, send, map a transport failure to
`UtilsError::Http`, branch on `error_for_status_ref`: pass → return the raw
body bytes; fail → `UtilsError::Custom` of a message rendering the status
error.  The outcome of the HTTP exchange is passed in as `send`. -/
def synthesize (cfg : Config) (voiceId : String) (request : Tts.TtsRequest)
    (send : Except ReqwestError Response) : Except Client.UtilsError Bytes :=
  if validHeaderValue cfg.api_key then
    match send with
    | Except.error e => Except.error (Client.UtilsError.Http e)
    | Except.ok response =>
        if errorForStatus response.status then
          Except.error (Client.UtilsError.Custom
            ("🚨 Failed to synthesize text: "
              ++ reqwestDisplay (ReqwestError.status response.status)))
        else
          Except.ok response.body
  else
    Except.error Client.UtilsError.InvalidHeader

/-- The request `VoicesClient::get_voice_metadata` constructs (`voices.rs`
lines 68-72): `create_request` GET on `{base}/v1/voices/{voice_id}`, the
`xi-api-key` header, and the `with_settings` boolean query flag. -/
def get_voice_metadata_request (cfg : Config) (voiceId : String) (with_settings : Bool) :
    Request :=
  ((create_request Method.GET (cfg.api_url ++ "/v1/voices/" ++ voiceId)).header
      "xi-api-key" cfg.api_key).withQuery
    [("with_settings", if with_settings then "true" else "false")]

/-- Response handling of `VoicesClient::get_voice_metadata` (`voices.rs`
lines 70-83): transport failure → `Http`; `is_success` → `Response::json`
into `VoiceMetadata` (a decode failure is a `reqwest::Error`, mapped to
`Http`); otherwise `Custom` with the status in the message. -/
def get_voice_metadata (cfg : Config) (voiceId : String) (with_settings : Bool)
    (send : Except ReqwestError JsonResponse) : Except Client.UtilsError Voices.VoiceMetadata :=
  match send with
  | Except.error e => Except.error (Client.UtilsError.Http e)
  | Except.ok response =>
      if isSuccess response.status then
        match Voices.VoiceMetadata.fromJson response.body with
        | some m => Except.ok m
        | none => Except.error (Client.UtilsError.Http
            (ReqwestError.decode "error decoding response body"))
      else
        Except.error (Client.UtilsError.Custom
          ("🚨 Failed to get voice metadata: HTTP " ++ toString response.status))

/-- The request `VoicesClient::delete_voice` constructs (`voices.rs` lines
106-109): `create_request` DELETE on `{base}/v1/voices/{voice_id}` with the
`xi-api-key` header. -/
def delete_voice_request (cfg : Config) (voiceId : String) : Request :=
  (create_request Method.DELETE (cfg.api_url ++ "/v1/voices/" ++ voiceId)).header
    "xi-api-key" cfg.api_key

/-- Response handling of `VoicesClient::delete_voice` (`voices.rs` lines
108-120): transport failure → `Http`; `is_success` → `Ok(())` without
reading the body; otherwise `Custom` with the status in the message. -/
def delete_voice (cfg : Config) (voiceId : String)
    (send : Except ReqwestError Response) : Except Client.UtilsError Unit :=
  match send with
  | Except.error e => Except.error (Client.UtilsError.Http e)
  | Except.ok response =>
      if isSuccess response.status then
        Except.ok ()
      else
        Except.error (Client.UtilsError.Custom
          ("🚨 Failed to delete voice: HTTP " ++ toString response.status))

/-- A local file system: resolving a path either yields a readable file
part or fails with an I/O error (`multipart::Part::file`). -/
abbrev FileSystem := String → Except IoError FilePart

/-- The `for file_path in files` loop of `add_voice`/`edit_voice`: attach
each path as a `files` part in order; the first I/O failure aborts the
whole form construction with that error. -/
def attachFiles (fs : FileSystem) : List String → List FormItem → Except IoError (List FormItem)
  | [], form => Except.ok form
  | path :: rest, form =>
      match fs path with
      | Except.error e => Except.error e
      | Except.ok part => attachFiles fs rest (form ++ [FormItem.filePart "files" part])

/-- Optional text field of the form (`description`, `labels`). -/
def optText (name : String) : Option String → List FormItem
  | none => []
  | some v => [FormItem.text name v]

/-- Multipart form construction shared by `add_voice` and `edit_voice`
(`voices.rs` lines 157-170 and 222-235): the `name` text field, then the
file parts, then the optional `description` and `labels` text fields. -/
def buildVoiceForm (fs : FileSystem) (name : String) (files : List String)
    (description labels : Option String) : Except IoError (List FormItem) :=
  match attachFiles fs files [FormItem.text "name" name] with
  | Except.error e => Except.error e
  | Except.ok form =>
      Except.ok (form ++ optText "description" description ++ optText "labels" labels)

/-- The request `VoicesClient::add_voice` sends once its form is built
(`voices.rs` lines 155-174): POST to `{base}/v1/voices/add` with the
`xi-api-key` header and the multipart body. -/
def add_voice_request (cfg : Config) (form : List FormItem) : Request :=
  { method := Method.POST, url := cfg.api_url ++ "/v1/voices/add",
    headers := [("xi-api-key", cfg.api_key)], query := [],
    body := RequestBody.multipart form }

/-- `VoicesClient::add_voice` (`voices.rs` lines 148-186).  Returns the
list of HTTP requests actually issued together with the outcome: a failing
file attachment returns that I/O error before any request exists. -/
def add_voice (cfg : Config) (name : String) (files : List String)
    (description labels : Option String) (fs : FileSystem)
    (send : Except ReqwestError TextResponse) :
    List Request × Except Client.UtilsError String :=
  match buildVoiceForm fs name files description labels with
  | Except.error e => ([], Except.error (Client.UtilsError.Io e))
  | Except.ok form =>
      let req := add_voice_request cfg form
      match send with
      | Except.error e => ([req], Except.error (Client.UtilsError.Http e))
      | Except.ok response =>
          if isSuccess response.status then
            ([req], Except.ok response.body)
          else
            ([req], Except.error (Client.UtilsError.Custom
              ("Failed to add voice: HTTP " ++ toString response.status)))

/-- The request `VoicesClient::edit_voice` sends once its form is built
(`voices.rs` lines 220-239): POST to `{base}/v1/voices/{voice_id}/edit`
with the `xi-api-key` header and the multipart body. -/
def edit_voice_request (cfg : Config) (voiceId : String) (form : List FormItem) : Request :=
  { method := Method.POST, url := cfg.api_url ++ "/v1/voices/" ++ voiceId ++ "/edit",
    headers := [("xi-api-key", cfg.api_key)], query := [],
    body := RequestBody.multipart form }

/-- `VoicesClient::edit_voice` (`voices.rs` lines 212-250), with the same
issued-requests bookkeeping as `add_voice`. -/
def edit_voice (cfg : Config) (voiceId : String) (name : String) (files : List String)
    (description labels : Option String) (fs : FileSystem)
    (send : Except ReqwestError Response) :
    List Request × Except Client.UtilsError Unit :=
  match buildVoiceForm fs name files description labels with
  | Except.error e => ([], Except.error (Client.UtilsError.Io e))
  | Except.ok form =>
      let req := edit_voice_request cfg voiceId form
      match send with
      | Except.error e => ([req], Except.error (Client.UtilsError.Http e))
      | Except.ok response =>
          if isSuccess response.status then
            ([req], Except.ok ())
          else
            ([req], Except.error (Client.UtilsError.Custom
              ("Failed to edit voice: HTTP " ++ toString response.status)))

/-- The request `VoicesClient::edit_voice_settings` constructs (`voices.rs`
lines 284-289): POST to `{base}/v1/voices/{voice_id}/settings/edit` with
`Content-Type`, `xi-api-key`, and the settings as JSON body. -/
def edit_voice_settings_request (cfg : Config) (voiceId : String)
    (settings : Voices.VoiceSettings) : Request :=
  { method := Method.POST,
    url := cfg.api_url ++ "/v1/voices/" ++ voiceId ++ "/settings/edit",
    headers := [("Content-Type", "application/json"), ("xi-api-key", cfg.api_key)],
    query := [],
    body := RequestBody.json (Voices.VoiceSettings.toJson settings) }

/-- The request `UserClient::send_request` constructs (`user.rs` lines
118-120): `create_request` GET on the given URL with the `xi-api-key`
header. -/
def send_request_request (cfg : Config) (url : String) : Request :=
  (create_request Method.GET url).header "xi-api-key" cfg.api_key

/-- The request `UserClient::get_user_info` issues (`user.rs` line 80). -/
def get_user_info_request (cfg : Config) : Request :=
  send_request_request cfg (cfg.api_url ++ "/v1/user")

/-- The request `UserClient::get_user_subscription_info` issues (`user.rs`
line 101). -/
def get_user_subscription_info_request (cfg : Config) : Request :=
  send_request_request cfg (cfg.api_url ++ "/v1/user/subscription")

/-- A concrete configuration used by the concrete witnesses. -/
def cfgTest : Config := { api_url := "https://api.test", api_key := "key123" }

/-- A concrete all-`None` TTS request used by the concrete witnesses. -/
def ttsReqTest : Tts.TtsRequest :=
  { text := "hi", model_id := none, voice_settings := none,
    pronunciation_dictionary_locators := none }

/-- A concrete file system on which exactly `bad.mp3` fails to open. -/
def fsTest : FileSystem := fun path =>
  if path = "bad.mp3" then Except.error { msg := "no such file" }
  else Except.ok { path := path, contents := [] }

/-- A concrete TTS request whose optional `style` holds the non-finite
`f32` value +∞. -/
def ttsReqInfStyle : Tts.TtsRequest :=
  { text := "hi", model_id := none,
    voice_settings :=
      some { stability := 0, similarity_boost := 0, style := some F32.inf,
             use_speaker_boost := none },
    pronunciation_dictionary_locators := none }

/-- What `ttsReqInfStyle` becomes after a serialize/deserialize round trip:
`style` was written as `null` and came back as `None`. -/
def ttsReqInfStyleDecoded : Tts.TtsRequest :=
  { text := "hi", model_id := none,
    voice_settings :=
      some { stability := 0, similarity_boost := 0, style := none,
             use_speaker_boost := none },
    pronunciation_dictionary_locators := none }

/-- A concrete TTS request with every optional field present and a finite
`style`, used by the round-trip witness. -/
def ttsReqAllFields : Tts.TtsRequest :=
  { text := "hi", model_id := some "m1",
    voice_settings :=
      some { stability := 1, similarity_boost := 2, style := some (F32.finite (1/2)),
             use_speaker_boost := some true },
    pronunciation_dictionary_locators :=
      some [{ pronunciation_dictionary_id := "d1", version_id := "v1" }] }

/-- Claim C10: for every value of `UtilsError` as defined in `errors.rs`,
`Error::source` returns `Some` of the wrapped cause — it never returns
`None`, since both declared variants (`Http`, `Io`) wrap an underlying
error. -/
theorem c10_source_never_none :
    ∀ e : Errors.UtilsError, ∃ c : Errors.DynError, Errors.UtilsError.source e = some c := by
  intro e
  cases e with
  | Http err => exact ⟨Errors.DynError.reqwest err, rfl⟩
  | Io err => exact ⟨Errors.DynError.io err, rfl⟩

/-- Claim C3 (code bug): the `UtilsError` enum that `errors.rs` declares has
exactly two variants — every value is either `Http` of a transport error or
`Io` of a filesystem error; no third custom-message variant exists, even
though `tts.rs` line 104, `voices.rs` and `user.rs` all construct
`UtilsError::Custom(...)`. -/
theorem c3_errors_enum_has_two_variants :
    ∀ e : Errors.UtilsError,
      (∃ r, e = Errors.UtilsError.Http r) ∨ (∃ i, e = Errors.UtilsError.Io i) := by
  intro e
  cases e with
  | Http err => exact Or.inl ⟨err, rfl⟩
  | Io err => exact Or.inr ⟨err, rfl⟩

/-- Claim C7: `load_api_key` fails with the "not set" error
(`VarError::NotPresent`) exactly when `ELEVENLABS_API_KEY` is absent from
the environment, and returns the exact string value when present; likewise
`load_api_url` for `ELEVENLABS_API_URL`. -/
theorem c7_config_loader_env :
    ∀ env : Env,
      (load_api_key env = Except.error VarError.NotPresent ↔ env "ELEVENLABS_API_KEY" = none) ∧
      (∀ v, env "ELEVENLABS_API_KEY" = some v → load_api_key env = Except.ok v) ∧
      (load_api_url env = Except.error VarError.NotPresent ↔ env "ELEVENLABS_API_URL" = none) ∧
      (∀ v, env "ELEVENLABS_API_URL" = some v → load_api_url env = Except.ok v) := by
  intro env
  refine ⟨?_, ?_, ?_, ?_⟩
  · unfold load_api_key env_var
    cases h : env "ELEVENLABS_API_KEY" <;> simp
  · intro v h
    unfold load_api_key env_var
    rw [h]
  · unfold load_api_url env_var
    cases h : env "ELEVENLABS_API_URL" <;> simp
  · intro v h
    unfold load_api_url env_var
    rw [h]

/-- Witness for C7: on a concrete environment holding the key variable,
`load_api_key` returns the exact value while `load_api_url` reports the
variable as not present. -/
theorem c7_config_loader_env_witness :
    load_api_key envWithKey = Except.ok "sk-test-123" ∧
    load_api_url envWithKey = Except.error VarError.NotPresent := by
  refine ⟨(c7_config_loader_env envWithKey).2.1 "sk-test-123" rfl, ?_⟩
  exact ((c7_config_loader_env envWithKey).2.2.1).mpr rfl

theorem locator_roundtrip (l : Tts.PronunciationDictionaryLocator) :
    Tts.PronunciationDictionaryLocator.fromJson (Tts.PronunciationDictionaryLocator.toJson l)
      = some l := rfl

theorem decodeLocators_roundtrip (ls : List Tts.PronunciationDictionaryLocator) :
    Tts.decodeLocators (ls.map Tts.PronunciationDictionaryLocator.toJson) = some ls := by
  induction ls with
  | nil => rfl
  | cons l rest ih =>
      simp [Tts.decodeLocators, locator_roundtrip, ih]

/-- Counterexample for C4 as stated: a well-formed `TtsRequest` whose
`style` holds the non-finite `f32` +∞ does not round-trip — serde_json
writes non-finite floats as `null`, which deserializes to `None`, so the
decoded request differs from the original. -/
theorem c4_counterexample_nonfinite_style :
    Tts.TtsRequest.fromJson (Tts.TtsRequest.toJson ttsReqInfStyle)
        = some ttsReqInfStyleDecoded ∧
    ttsReqInfStyleDecoded ≠ ttsReqInfStyle := by
  exact ⟨rfl, by decide⟩

/-- Claim C4 as amended: for every `TtsRequest` whose optional `style`
float is absent or finite, serializing and deserializing gives back an
equal value, over every combination of present and absent optional fields
(`model_id`, `voice_settings`, `pronunciation_dictionary_locators`),
including all-`None`. -/
theorem c4_tts_request_roundtrip_finite (r : Tts.TtsRequest)
    (h : Tts.TtsRequest.finiteFloats r = true) :
    Tts.TtsRequest.fromJson (Tts.TtsRequest.toJson r) = some r := by
  obtain ⟨text, mid, vs, locs⟩ := r
  cases vs with
  | none =>
      cases mid <;> cases locs <;>
        simp [Tts.TtsRequest.toJson, Tts.TtsRequest.fromJson, encodeOpt, Json.getField,
          lookupField, decodeOptField, Json.asStr, Json.asArr, decodeLocators_roundtrip]
  | some v =>
      obtain ⟨st, sb, sty, bo⟩ := v
      rcases sty with _ | f
      · cases mid <;> cases locs <;> cases bo <;>
          simp [Tts.TtsRequest.toJson, Tts.TtsRequest.fromJson, encodeOpt, Json.getField,
            lookupField, decodeOptField, Json.asStr, Json.asArr, Json.asInt, Json.asF32,
            Json.asBool, decodeLocators_roundtrip, Tts.VoiceSettings.toJson,
            Tts.VoiceSettings.fromJson, encodeF32]
      · cases f with
        | finite q =>
            cases mid <;> cases locs <;> cases bo <;>
              simp [Tts.TtsRequest.toJson, Tts.TtsRequest.fromJson, encodeOpt, Json.getField,
                lookupField, decodeOptField, Json.asStr, Json.asArr, Json.asInt, Json.asF32,
                Json.asBool, decodeLocators_roundtrip, Tts.VoiceSettings.toJson,
                Tts.VoiceSettings.fromJson, encodeF32]
        | nan =>
            simp [Tts.TtsRequest.finiteFloats, Tts.VoiceSettings.finiteFloats, optFinite,
              F32.isFinite] at h
        | inf =>
            simp [Tts.TtsRequest.finiteFloats, Tts.VoiceSettings.finiteFloats, optFinite,
              F32.isFinite] at h
        | negInf =>
            simp [Tts.TtsRequest.finiteFloats, Tts.VoiceSettings.finiteFloats, optFinite,
              F32.isFinite] at h

/-- Witness for C4 (amended): a concrete request with all optional fields
present and a finite `style` of one half round-trips to itself. -/
theorem c4_tts_request_roundtrip_finite_witness :
    Tts.TtsRequest.finiteFloats ttsReqAllFields = true ∧
    Tts.TtsRequest.fromJson (Tts.TtsRequest.toJson ttsReqAllFields)
        = some ttsReqAllFields :=
  ⟨by decide, c4_tts_request_roundtrip_finite ttsReqAllFields (by decide)⟩

/-- Claim C8: the TTS-module `VoiceSettings` (integer-typed `stability` and
`similarity_boost`) and the voices-module `VoiceSettings` (float-typed) are
incompatible shapes: a value serialized from the voices shape need not
deserialize into the TTS shape — `stability = 1/2` serializes to a float
token that the integer field rejects. -/
theorem c8_voice_settings_shapes_incompatible :
    ∃ v : Voices.VoiceSettings,
      Tts.VoiceSettings.fromJson (Voices.VoiceSettings.toJson v) = none :=
  ⟨{ stability := 1/2, similarity_boost := 1/2, style := none, use_speaker_boost := none }, rfl⟩

/-- Claim C1: for every valid `Config` (an API key acceptable as a header
value), every request constructed by `synthesize`, `get_voice_metadata`,
`delete_voice`, `add_voice`, `edit_voice`, `edit_voice_settings`,
`get_user_info` and `get_user_subscription_info` carries the `xi-api-key`
header with value `config.api_key`. -/
theorem c1_every_request_carries_api_key
    (cfg : Config) (h : validHeaderValue cfg.api_key = true)
    (voiceId : String) (request : Tts.TtsRequest) (ws : Bool)
    (form : List FormItem) (settings : Voices.VoiceSettings) :
    ("xi-api-key", cfg.api_key) ∈ (synthesizeRequest cfg voiceId request).headers ∧
    ("xi-api-key", cfg.api_key) ∈ (get_voice_metadata_request cfg voiceId ws).headers ∧
    ("xi-api-key", cfg.api_key) ∈ (delete_voice_request cfg voiceId).headers ∧
    ("xi-api-key", cfg.api_key) ∈ (add_voice_request cfg form).headers ∧
    ("xi-api-key", cfg.api_key) ∈ (edit_voice_request cfg voiceId form).headers ∧
    ("xi-api-key", cfg.api_key) ∈ (edit_voice_settings_request cfg voiceId settings).headers ∧
    ("xi-api-key", cfg.api_key) ∈ (get_user_info_request cfg).headers ∧
    ("xi-api-key", cfg.api_key) ∈ (get_user_subscription_info_request cfg).headers := by
  refine ⟨?_, ?_, ?_, ?_, ?_, ?_, ?_, ?_⟩ <;>
    simp [synthesizeRequest, get_voice_metadata_request, delete_voice_request,
      add_voice_request, edit_voice_request, edit_voice_settings_request,
      get_user_info_request, get_user_subscription_info_request, send_request_request,
      create_request, Request.header, Request.withQuery]

/-- Witness for C1 at a concrete configuration and concrete arguments. -/
theorem c1_every_request_carries_api_key_witness :
    ("xi-api-key", cfgTest.api_key) ∈ (synthesizeRequest cfgTest "v" ttsReqTest).headers ∧
    ("xi-api-key", cfgTest.api_key) ∈ (get_voice_metadata_request cfgTest "v" true).headers ∧
    ("xi-api-key", cfgTest.api_key) ∈ (delete_voice_request cfgTest "v").headers ∧
    ("xi-api-key", cfgTest.api_key) ∈ (add_voice_request cfgTest []).headers ∧
    ("xi-api-key", cfgTest.api_key) ∈ (edit_voice_request cfgTest "v" []).headers ∧
    ("xi-api-key", cfgTest.api_key) ∈
      (edit_voice_settings_request cfgTest "v"
        { stability := 0, similarity_boost := 0, style := none,
          use_speaker_boost := none }).headers ∧
    ("xi-api-key", cfgTest.api_key) ∈ (get_user_info_request cfgTest).headers ∧
    ("xi-api-key", cfgTest.api_key) ∈ (get_user_subscription_info_request cfgTest).headers :=
  c1_every_request_carries_api_key cfgTest (by decide) "v" ttsReqTest true []
    { stability := 0, similarity_boost := 0, style := none, use_speaker_boost := none }

/-- Counterexample for C2 as stated: a mocked `304` response is not 2xx,
yet `synthesize` returns the raw body as success (the code only treats
4xx/5xx as failures, via `error_for_status_ref`), so "on any non-2xx
status returns an error" is false. -/
theorem c2_counterexample_304_returns_body :
    synthesize cfgTest "v" ttsReqTest (Except.ok { status := 304, body := [7] })
        = Except.ok [7] ∧
    isSuccess 304 = false := by
  exact ⟨rfl, by decide⟩

/-- Claim C2 as amended: with a valid API key, `synthesize` returns the raw
body bytes for every response whose status is not 4xx/5xx (in particular
every 2xx), returns a custom error whose message contains the status for
every 4xx/5xx response, and returns the transport error wrapped in `Http`
on transport failure. -/
theorem c2_synthesize_status_mapping
    (cfg : Config) (voiceId : String) (request : Tts.TtsRequest)
    (h : validHeaderValue cfg.api_key = true) :
    (∀ response : Response, errorForStatus response.status = false →
        synthesize cfg voiceId request (Except.ok response) = Except.ok response.body) ∧
    (∀ response : Response, errorForStatus response.status = true →
        ∃ msg, synthesize cfg voiceId request (Except.ok response)
            = Except.error (Client.UtilsError.Custom msg) ∧
          strContains msg (toString response.status)) ∧
    (∀ e : ReqwestError, synthesize cfg voiceId request (Except.error e)
        = Except.error (Client.UtilsError.Http e)) := by
  refine ⟨?_, ?_, ?_⟩
  · intro response hs
    simp [synthesize, h, hs]
  · intro response hs
    refine ⟨"🚨 Failed to synthesize text: "
      ++ reqwestDisplay (ReqwestError.status response.status), ?_, ?_⟩
    · simp [synthesize, h, hs]
    · refine ⟨("🚨 Failed to synthesize text: "
        ++ ("HTTP status " ++ (if 500 ≤ response.status then "server" else "client")
            ++ " error (")).data, (")").data, ?_⟩
      simp [reqwestDisplay]
  · intro e
    simp [synthesize, h]

/-- Witness for C2 (amended): the spec's two mocked exchanges — a 200 with
body bytes 0,1 yields exactly those bytes, a 401 yields a custom error
whose message contains "401" — and a transport failure yields `Http`. -/
theorem c2_synthesize_status_mapping_witness :
    synthesize cfgTest "v" ttsReqTest (Except.ok { status := 200, body := [0, 1] })
        = Except.ok [0, 1] ∧
    (∃ msg, synthesize cfgTest "v" ttsReqTest (Except.ok { status := 401, body := [] })
        = Except.error (Client.UtilsError.Custom msg) ∧ strContains msg "401") ∧
    synthesize cfgTest "v" ttsReqTest (Except.error (ReqwestError.transport "refused"))
        = Except.error (Client.UtilsError.Http (ReqwestError.transport "refused")) := by
  have h := c2_synthesize_status_mapping cfgTest "v" ttsReqTest (by decide)
  refine ⟨h.1 { status := 200, body := [0, 1] } (by decide), ?_, h.2.2 _⟩
  have h401 := h.2.1 { status := 401, body := [] } (by decide)
  exact h401

/-- Claim C5: `delete_voice` issues a DELETE, succeeds with unit (no body
read) exactly when the status is 2xx, and returns an error on any non-2xx
status. -/
theorem c5_delete_voice_two_xx
    (cfg : Config) (voiceId : String) (response : Response) :
    (delete_voice_request cfg voiceId).method = Method.DELETE ∧
    (delete_voice cfg voiceId (Except.ok response) = Except.ok ()
        ↔ isSuccess response.status = true) ∧
    (isSuccess response.status = false →
      ∃ msg, delete_voice cfg voiceId (Except.ok response)
          = Except.error (Client.UtilsError.Custom msg)) := by
  refine ⟨rfl, ?_, ?_⟩
  · cases hs : isSuccess response.status <;> simp [delete_voice, hs]
  · intro hs
    exact ⟨"🚨 Failed to delete voice: HTTP " ++ toString response.status,
      by simp [delete_voice, hs]⟩

/-- Witness for C5: a mocked 204 succeeds, a mocked 404 returns an error. -/
theorem c5_delete_voice_two_xx_witness :
    delete_voice cfgTest "v" (Except.ok { status := 204, body := [] }) = Except.ok () ∧
    (∃ msg, delete_voice cfgTest "v" (Except.ok { status := 404, body := [] })
        = Except.error (Client.UtilsError.Custom msg)) :=
  ⟨(c5_delete_voice_two_xx cfgTest "v" { status := 204, body := [] }).2.1.mpr (by decide),
   (c5_delete_voice_two_xx cfgTest "v" { status := 404, body := [] }).2.2 (by decide)⟩

/-- Claim C6: `get_voice_metadata(voice_id, true)` issues a GET whose query
string contains `with_settings=true`, and on a successful status
deserializes the response body into `VoiceMetadata`. -/
theorem c6_get_voice_metadata_query_flag
    (cfg : Config) (voiceId : String) :
    (get_voice_metadata_request cfg voiceId true).method = Method.GET ∧
    strContains (renderQuery (get_voice_metadata_request cfg voiceId true).query)
      "with_settings=true" ∧
    (∀ (response : JsonResponse) (m : Voices.VoiceMetadata),
      isSuccess response.status = true →
      Voices.VoiceMetadata.fromJson response.body = some m →
      get_voice_metadata cfg voiceId true (Except.ok response) = Except.ok m) := by
  refine ⟨rfl, ⟨[], [], rfl⟩, ?_⟩
  intro response m hs hm
  simp [get_voice_metadata, hs, hm]

/-- Witness for C6: on a concrete 200 response whose JSON body holds
`voice_id`, the metadata is returned. -/
theorem c6_get_voice_metadata_query_flag_witness :
    get_voice_metadata cfgTest "v" true
        (Except.ok { status := 200, body := Json.obj [("voice_id", Json.str "v1")] })
      = Except.ok { voice_id := "v1" } :=
  (c6_get_voice_metadata_query_flag cfgTest "v").2.2
    { status := 200, body := Json.obj [("voice_id", Json.str "v1")] }
    { voice_id := "v1" } (by decide) rfl

theorem attachFiles_firstError (fs : FileSystem) (p : String) (e : IoError)
    (files₂ : List String) (hp : fs p = Except.error e) :
    ∀ (files₁ : List String) (form : List FormItem),
      (∀ q ∈ files₁, ∃ part, fs q = Except.ok part) →
      attachFiles fs (files₁ ++ p :: files₂) form = Except.error e := by
  intro files₁
  induction files₁ with
  | nil => intro form _; simp [attachFiles, hp]
  | cons q rest ih =>
      intro form hok
      obtain ⟨part, hq⟩ := hok q (by simp)
      simp only [List.cons_append, attachFiles, hq]
      exact ih _ (fun r hr => hok r (by simp [hr]))

/-- Claim C9: in `add_voice` and `edit_voice`, if opening one of the file
paths fails (all earlier ones having opened), the method returns exactly
that I/O error and issues no HTTP request at all: the failure happens
strictly before the send step. -/
theorem c9_file_failure_prevents_request
    (cfg : Config) (name voiceId p : String) (files₁ files₂ : List String)
    (description labels : Option String) (fs : FileSystem) (e : IoError)
    (sendA : Except ReqwestError TextResponse) (sendE : Except ReqwestError Response)
    (hok : ∀ q ∈ files₁, ∃ part, fs q = Except.ok part)
    (hp : fs p = Except.error e) :
    add_voice cfg name (files₁ ++ p :: files₂) description labels fs sendA
        = ([], Except.error (Client.UtilsError.Io e)) ∧
    edit_voice cfg voiceId name (files₁ ++ p :: files₂) description labels fs sendE
        = ([], Except.error (Client.UtilsError.Io e)) := by
  have hform : buildVoiceForm fs name (files₁ ++ p :: files₂) description labels
      = Except.error e := by
    unfold buildVoiceForm
    rw [attachFiles_firstError fs p e files₂ hp files₁ _ hok]
  constructor
  · unfold add_voice
    rw [hform]
  · unfold edit_voice
    rw [hform]

/-- Witness for C9: on a file system where `bad.mp3` fails to open,
`add_voice` and `edit_voice` over `[good.mp3, bad.mp3]` return the I/O
error and issue no request, whatever the network would have answered. -/
theorem c9_file_failure_prevents_request_witness :
    add_voice cfgTest "n" ["good.mp3", "bad.mp3"] none none fsTest
        (Except.error (ReqwestError.transport "unreachable"))
      = ([], Except.error (Client.UtilsError.Io { msg := "no such file" })) ∧
    edit_voice cfgTest "v" "n" ["good.mp3", "bad.mp3"] none none fsTest
        (Except.error (ReqwestError.transport "unreachable"))
      = ([], Except.error (Client.UtilsError.Io { msg := "no such file" })) :=
  c9_file_failure_prevents_request cfgTest "n" "v" "bad.mp3" ["good.mp3"] []
    none none fsTest { msg := "no such file" }
    (Except.error (ReqwestError.transport "unreachable"))
    (Except.error (ReqwestError.transport "unreachable"))
    (by
      intro q hq
      simp only [List.mem_singleton] at hq
      subst hq
      exact ⟨{ path := "good.mp3", contents := [] }, rfl⟩)
    rfl

end ElevenLabs
